import Mathlib

/-!
Shallow embedding of the virtual try-on fitting pipeline (src/main.py).

A mesh is a triangulated surface: a list of 3D vertex positions with exact
rational coordinates, plus a list of triangle index triples.  The external
collaborators (trimesh's surface sampler and its `trimesh.registration.icp`
routine) enter the embedding as oracle parameters, and the geometric
attributes supplied by the mesh library (`extents`, `centroid`) are modelled
from their documented behaviour.  In-place mutation of a mesh object is
modelled by state passing: a mutating operation returns both its Python
return value and the state of its argument object after the call.
-/

/-- A 3D vector with exact rational coordinates (models a numpy 3-array). -/
structure Vec3 where
  x : ℚ
  y : ℚ
  z : ℚ
  deriving DecidableEq

/-- Componentwise subtraction of numpy 3-arrays. -/
def vecSub (a b : Vec3) : Vec3 := ⟨a.x - b.x, a.y - b.y, a.z - b.z⟩

/-- Componentwise multiplication of numpy 3-arrays. -/
def vecMul (a b : Vec3) : Vec3 := ⟨a.x * b.x, a.y * b.y, a.z * b.z⟩

/-- Componentwise division of numpy 3-arrays.  With a zero divisor numpy
emits a runtime warning and produces a non-finite junk component while
execution continues; rational division by zero likewise produces a junk
component (`0`), and nothing in the translated source branches on it. -/
def vecDiv (a b : Vec3) : Vec3 := ⟨a.x / b.x, a.y / b.y, a.z / b.z⟩

/-- View a 3-vector as the length-3 sequence Python sees. -/
def Vec3.toList (v : Vec3) : List ℚ := [v.x, v.y, v.z]

/-- A triangulated surface mesh: vertex positions plus triangle index
triples (trimesh.Trimesh). -/
structure Mesh where
  vertices : List Vec3
  faces : List (Nat × Nat × Nat)
  deriving DecidableEq

/-- Model of `copy.deepcopy` on a mesh: a fresh object with an equal value. -/
def deepcopy (m : Mesh) : Mesh := ⟨m.vertices, m.faces⟩

/-- A 4x4 homogeneous transform matrix (numpy 4x4 array). -/
structure Mat4 where
  a00 : ℚ
  a01 : ℚ
  a02 : ℚ
  a03 : ℚ
  a10 : ℚ
  a11 : ℚ
  a12 : ℚ
  a13 : ℚ
  a20 : ℚ
  a21 : ℚ
  a22 : ℚ
  a23 : ℚ
  a30 : ℚ
  a31 : ℚ
  a32 : ℚ
  a33 : ℚ
  deriving DecidableEq

/-- Model of `np.eye(4)`. -/
def eye4 : Mat4 := ⟨1, 0, 0, 0, 0, 1, 0, 0, 0, 0, 1, 0, 0, 0, 0, 1⟩

/-- Model of `scale_matrix = np.eye(4); scale_matrix[:3,:3] = np.diag(scale_factors)`
(src/main.py lines 82-83). -/
def scaleMatOf (f0 f1 f2 : ℚ) : Mat4 := { eye4 with a00 := f0, a11 := f1, a22 := f2 }

/-- Model of `transform = np.eye(4); transform[:3,3] = translation`
(src/main.py lines 92-93). -/
def translationMatOf (t0 t1 t2 : ℚ) : Mat4 := { eye4 with a03 := t0, a13 := t1, a23 := t2 }

/-- Action of an affine homogeneous matrix on a vertex position, as performed
by trimesh's `apply_transform` (multiply the homogeneous column vector on the
left; the last row of every matrix built by the source is `[0,0,0,1]`). -/
def applyMat4 (M : Mat4) (v : Vec3) : Vec3 :=
  ⟨M.a00 * v.x + M.a01 * v.y + M.a02 * v.z + M.a03,
   M.a10 * v.x + M.a11 * v.y + M.a12 * v.z + M.a13,
   M.a20 * v.x + M.a21 * v.y + M.a22 * v.z + M.a23⟩

/-- Model of `mesh.apply_transform(matrix)` (trimesh): every vertex position
is transformed; connectivity is untouched. -/
def apply_transform (m : Mesh) (M : Mat4) : Mesh :=
  ⟨m.vertices.map (applyMat4 M), m.faces⟩

/-- Model of the trimesh attribute `mesh.extents`: the componentwise
maximum minus minimum of the vertex positions, and `None` for an empty mesh
(trimesh's `bounds`, hence `extents`, is `None` when there are no vertices). -/
def extents (m : Mesh) : Option Vec3 :=
  match m.vertices with
  | [] => none
  | v :: vs =>
      some ⟨(vs.map Vec3.x).foldl max v.x - (vs.map Vec3.x).foldl min v.x,
            (vs.map Vec3.y).foldl max v.y - (vs.map Vec3.y).foldl min v.y,
            (vs.map Vec3.z).foldl max v.z - (vs.map Vec3.z).foldl min v.z⟩

/-- Model of the trimesh attribute `mesh.centroid`, the geometric center used
by the pipeline only to place the garment relative to the body.  The spec
permits either the arithmetic mean of vertex positions or an area-weighted
mean; we adopt the arithmetic mean (exact in ℚ).  Every claim involving the
centroid is relational in this attribute. -/
def centroid (m : Mesh) : Vec3 :=
  ⟨(m.vertices.map Vec3.x).sum / (m.vertices.length : ℚ),
   (m.vertices.map Vec3.y).sum / (m.vertices.length : ℚ),
   (m.vertices.map Vec3.z).sum / (m.vertices.length : ℚ)⟩

/-- Translation of `scale_mesh` (src/main.py lines 77-85).  The first
component is the Python return value, the second the state of the argument
mesh object after the call (`apply_transform` mutates it in place).  A `none`
mesh or a factor sequence whose length is not 3 yields `None` with the mesh
untouched. -/
def scale_mesh : Option Mesh → List ℚ → Option Mesh × Option Mesh
  | none, _ => (none, none)
  | some m, [f0, f1, f2] =>
      let m2 := apply_transform m (scaleMatOf f0 f1 f2)
      (some m2, some m2)
  | some m, _ => (none, some m)

/-- Translation of `translate_mesh` (src/main.py lines 87-95), with the same
return-value/argument-state convention as `scale_mesh`. -/
def translate_mesh : Option Mesh → List ℚ → Option Mesh × Option Mesh
  | none, _ => (none, none)
  | some m, [t0, t1, t2] =>
      let m2 := apply_transform m (translationMatOf t0 t1 t2)
      (some m2, some m2)
  | some m, _ => (none, some m)

/-- Pre-scale ratios selected by the `gender` string (src/main.py
lines 111-114): the exact string "female" selects the female constants,
anything else the male constants. -/
def preScaleRatios (gender : String) : Vec3 :=
  if gender = "female" then ⟨0.71, 0.41, 1.42⟩ else ⟨0.79, 0.43, 1.25⟩

/-- Corrective post-scale factors selected by the `gender` string
(src/main.py lines 126-129). -/
def postScaleFactors (gender : String) : List ℚ :=
  if gender = "female" then [0.9, 1.04, 1.2] else [1, 1.04, 1.3]

/-- The pre-scale factors computed by `fit_t_shirt` (src/main.py
lines 111-114): `body_size / shirt_size * ratios`, componentwise. -/
def fitScaleFactors (body_size shirt_size : Vec3) (gender : String) : Vec3 :=
  vecMul (vecDiv body_size shirt_size) (preScaleRatios gender)

/-- The pre-ICP translation computed by `fit_t_shirt` (src/main.py
lines 118-119): body centroid minus scaled-garment centroid, with the
vertical component bumped by `body_size[1] * 0.1`. -/
def fitTranslation (body : Mesh) (body_size : Vec3) (scaled_shirt : Mesh) : Vec3 :=
  let translation := vecSub (centroid body) (centroid scaled_shirt)
  ⟨translation.x, translation.y + body_size.y * 0.1, translation.z⟩

/-- Translation of `align_meshes_icp` (src/main.py lines 46-75).  The surface
sampler and `trimesh.registration.icp` are external collaborators, passed as
oracles: `sampler m n` is the point cloud drawn from mesh `m` with count `n`,
and `icp src tgt` is `some` of the recovered matrix, or `none` when the
registration call raises (the call site fixes `initial` to the identity,
`max_iterations = 100`, `threshold = 0.01` and `scale=False`; the `except`
block catches the failure, logs it and returns `None`). -/
def align_meshes_icp (sampler : Mesh → Nat → List Vec3)
    (icp : List Vec3 → List Vec3 → Option Mat4)
    (target_mesh source_mesh : Option Mesh) : Option Mesh :=
  match target_mesh, source_mesh with
  | none, _ => none
  | some _, none => none
  | some t, some s =>
      let source_copy := deepcopy s
      let target_points := sampler t 5000
      let source_points := sampler source_copy 5000
      match icp source_points target_points with
      | none => none
      | some transform => some (apply_transform source_copy transform)

/-- Python exceptions that the translated code can raise and does not catch. -/
inductive PyError where
  | typeError
  | attributeError
  deriving DecidableEq

/-- Outcome of a Python call: a returned value, or an uncaught exception. -/
inductive PyResult (α : Type) where
  | ok : α → PyResult α
  | raised : PyError → PyResult α
  deriving DecidableEq

/-- A complete call to `fit_t_shirt`: the returned pair (or uncaught
exception), together with the states of the two caller-owned mesh objects
after the call. -/
structure FitCall where
  ret : PyResult (Option Mesh × Option Mesh)
  body_after : Option Mesh
  shirt_after : Option Mesh
  deriving DecidableEq

/-- Translation of `fit_t_shirt` (src/main.py lines 97-131).  The caller's
mesh objects are passed only to read-only attributes (`extents`, `centroid`,
sampling) and to `copy.deepcopy`; every mutating call targets the working
copy made at line 116 or the copy made inside `align_meshes_icp`, so the
caller-visible states after the call are the input states.  When either
extents attribute is `None` (empty mesh) the division at lines 112/114
raises an uncaught `TypeError`; when `scale_mesh` were to return `None` the
attribute access `scaled_shirt.centroid` at line 118 would raise an uncaught
`AttributeError`. -/
def fit_t_shirt (sampler : Mesh → Nat → List Vec3)
    (icp : List Vec3 → List Vec3 → Option Mat4)
    (body_mesh shirt_mesh : Option Mesh) (gender : String) : FitCall :=
  match body_mesh, shirt_mesh with
  | none, s => ⟨.ok (none, none), none, s⟩
  | some b, none => ⟨.ok (none, none), some b, none⟩
  | some body, some shirt =>
      match extents body, extents shirt with
      | some body_size, some shirt_size =>
          let scale_factors := fitScaleFactors body_size shirt_size gender
          match (scale_mesh (some (deepcopy shirt)) scale_factors.toList).1 with
          | none => ⟨.raised .attributeError, some body, some shirt⟩
          | some scaled_shirt =>
              let translation := fitTranslation body body_size scaled_shirt
              let positioned_shirt :=
                (translate_mesh (some scaled_shirt) translation.toList).1
              let aligned_shirt :=
                match align_meshes_icp sampler icp (some body) positioned_shirt with
                | none => positioned_shirt
                | some a => some a
              let final_shirt := (scale_mesh aligned_shirt (postScaleFactors gender)).1
              ⟨.ok (final_shirt, some body), some body, some shirt⟩
      | _, _ => ⟨.raised .typeError, some body, some shirt⟩

/-- True when a `fit_t_shirt` call returned normally with a fitted mesh in
the first component. -/
def returnsFittedMesh (r : PyResult (Option Mesh × Option Mesh)) : Bool :=
  match r with
  | .ok (some _, _) => true
  | _ => false

/-- A surface-sampler oracle that returns the empty point cloud. -/
def sampler0 : Mesh → Nat → List Vec3 := fun _ _ => []

/-- An ICP oracle modelling a registration call that always raises. -/
def icpFail : List Vec3 → List Vec3 → Option Mat4 := fun _ _ => none

/-- The empty mesh (`trimesh.Trimesh()`): zero triangles, zero vertices. -/
def emptyMesh0 : Mesh := ⟨[], []⟩

/-- A concrete body mesh with extents `[1, 2, 1]`. -/
def body0 : Mesh := ⟨[⟨0, 0, 0⟩, ⟨1, 2, 1⟩], [(0, 1, 0)]⟩

/-- A concrete garment mesh with extents `[1, 1, 1]`. -/
def shirt0 : Mesh := ⟨[⟨0, 0, 0⟩, ⟨1, 1, 1⟩], [(0, 1, 1)]⟩

/-- A concrete garment mesh whose x extent is zero (extents `[0, 1, 1]`). -/
def flatShirt0 : Mesh := ⟨[⟨0, 0, 0⟩, ⟨0, 1, 1⟩], [(0, 1, 1)]⟩

/-- The scaled working copy of `shirt0` produced inside
`fit_t_shirt body0 shirt0 "male"`. -/
def scaled0 : Mesh :=
  ((scale_mesh (some (deepcopy shirt0))
      (fitScaleFactors ⟨1, 2, 1⟩ ⟨1, 1, 1⟩ "male").toList).1).getD emptyMesh0

/-- The pre-ICP positioned garment produced inside
`fit_t_shirt body0 shirt0 "male"`. -/
def positioned0 : Mesh :=
  ((translate_mesh (some scaled0)
      (fitTranslation body0 ⟨1, 2, 1⟩ scaled0).toList).1).getD emptyMesh0

/-- Evaluation of the male-profile pre-scale ratios. -/
theorem preScaleRatios_male : preScaleRatios "male" = ⟨0.79, 0.43, 1.25⟩ := by
  rw [preScaleRatios, if_neg (by decide)]

/-- Evaluation of the male-profile post-scale factors. -/
theorem postScaleFactors_male : postScaleFactors "male" = [1, 1.04, 1.3] := by
  rw [postScaleFactors, if_neg (by decide)]

/-- The scale matrix acts on a vertex as componentwise multiplication. -/
theorem applyMat4_scaleMatOf (f0 f1 f2 : ℚ) (v : Vec3) :
    applyMat4 (scaleMatOf f0 f1 f2) v = ⟨f0 * v.x, f1 * v.y, f2 * v.z⟩ := by
  simp [applyMat4, scaleMatOf, eye4]

/-- The translation matrix acts on a vertex as componentwise addition. -/
theorem applyMat4_translationMatOf (t0 t1 t2 : ℚ) (v : Vec3) :
    applyMat4 (translationMatOf t0 t1 t2) v = ⟨v.x + t0, v.y + t1, v.z + t2⟩ := by
  simp [applyMat4, translationMatOf, eye4]

/-- Characterization of `scale_mesh` on a length-3 factor list: the returned
mesh and the mutated argument are both the componentwise-scaled mesh. -/
theorem scale_mesh_three (m : Mesh) (f0 f1 f2 : ℚ) :
    scale_mesh (some m) [f0, f1, f2] =
      (some ⟨m.vertices.map (fun v => ⟨f0 * v.x, f1 * v.y, f2 * v.z⟩), m.faces⟩,
       some ⟨m.vertices.map (fun v => ⟨f0 * v.x, f1 * v.y, f2 * v.z⟩), m.faces⟩) := by
  simp [scale_mesh, apply_transform, applyMat4_scaleMatOf]

/-- Characterization of `translate_mesh` on a length-3 vector: the returned
mesh and the mutated argument are both the componentwise-shifted mesh. -/
theorem translate_mesh_three (m : Mesh) (t0 t1 t2 : ℚ) :
    translate_mesh (some m) [t0, t1, t2] =
      (some ⟨m.vertices.map (fun v => ⟨v.x + t0, v.y + t1, v.z + t2⟩), m.faces⟩,
       some ⟨m.vertices.map (fun v => ⟨v.x + t0, v.y + t1, v.z + t2⟩), m.faces⟩) := by
  simp [translate_mesh, apply_transform, applyMat4_translationMatOf]

/-- Folding `max` over a uniformly shifted list shifts the fold. -/
theorem foldl_max_add (l : List ℚ) (a c : ℚ) :
    ((l.map fun q => q + c).foldl max (a + c)) = l.foldl max a + c := by
  induction l generalizing a with
  | nil => simp
  | cons h t ih =>
      simp only [List.map_cons, List.foldl_cons, max_add_add_right]
      exact ih (max a h)

/-- Folding `min` over a uniformly shifted list shifts the fold. -/
theorem foldl_min_add (l : List ℚ) (a c : ℚ) :
    ((l.map fun q => q + c).foldl min (a + c)) = l.foldl min a + c := by
  induction l generalizing a with
  | nil => simp
  | cons h t ih =>
      simp only [List.map_cons, List.foldl_cons, min_add_add_right]
      exact ih (min a h)

/-- Shifting every vertex by a fixed vector does not change the extents. -/
theorem extents_shift (m : Mesh) (t0 t1 t2 : ℚ) :
    extents ⟨m.vertices.map (fun v => ⟨v.x + t0, v.y + t1, v.z + t2⟩), m.faces⟩ =
      extents m := by
  rcases m with ⟨verts, faces⟩
  cases verts with
  | nil => rfl
  | cons v vs =>
      simp only [extents, List.map_cons, Option.some.injEq, Vec3.mk.injEq]
      refine ⟨?_, ?_, ?_⟩
      · have hx : (vs.map fun w : Vec3 => (⟨w.x + t0, w.y + t1, w.z + t2⟩ : Vec3)).map Vec3.x
            = (vs.map Vec3.x).map (fun q => q + t0) := by
          simp [List.map_map, Function.comp]
        rw [hx, foldl_max_add, foldl_min_add, add_sub_add_right_eq_sub]
      · have hy : (vs.map fun w : Vec3 => (⟨w.x + t0, w.y + t1, w.z + t2⟩ : Vec3)).map Vec3.y
            = (vs.map Vec3.y).map (fun q => q + t1) := by
          simp [List.map_map, Function.comp]
        rw [hy, foldl_max_add, foldl_min_add, add_sub_add_right_eq_sub]
      · have hz : (vs.map fun w : Vec3 => (⟨w.x + t0, w.y + t1, w.z + t2⟩ : Vec3)).map Vec3.z
            = (vs.map Vec3.z).map (fun q => q + t2) := by
          simp [List.map_map, Function.comp]
        rw [hz, foldl_max_add, foldl_min_add, add_sub_add_right_eq_sub]

/-- A mesh with at least one vertex has extents. -/
theorem extents_isSome_of_ne_nil (m : Mesh) (h : m.vertices ≠ []) :
    ∃ e, extents m = some e := by
  rcases m with ⟨verts, faces⟩
  cases verts with
  | nil => exact absurd rfl h
  | cons v vs => exact ⟨_, rfl⟩

/-- A mesh with an empty vertex list has no extents (trimesh returns None). -/
theorem extents_eq_none (m : Mesh) (h : m.vertices = []) : extents m = none := by
  rcases m with ⟨verts, faces⟩
  cases verts with
  | nil => rfl
  | cons v vs => simp at h

/-- The ICP fallback (`if aligned_shirt is None: aligned_shirt = positioned_shirt`
with a `some` positioned garment) always yields a mesh. -/
theorem fallback_is_some (o : Option Mesh) (m : Mesh) :
    ∃ m2, (match o with | none => some m | some a => some a) = some m2 := by
  cases o with
  | none => exact ⟨m, rfl⟩
  | some a => exact ⟨a, rfl⟩

/-- The corrective post-scale always succeeds on a mesh: both profile factor
lists have length 3. -/
theorem post_scale_is_some (m : Mesh) (gender : String) :
    ∃ m2, (scale_mesh (some m) (postScaleFactors gender)).1 = some m2 := by
  by_cases hg : gender = "female"
  · rw [postScaleFactors, if_pos hg, scale_mesh_three]
    exact ⟨_, rfl⟩
  · rw [postScaleFactors, if_neg hg, scale_mesh_three]
    exact ⟨_, rfl⟩

/-- C7: for a factor argument that does not have exactly 3 components,
`scale_mesh` signals the error by returning `None` and leaves the mesh's
vertex positions unchanged; for every length-3 factor vector (zero and
negative components included) it multiplies every vertex coordinate
componentwise by the factors. -/
theorem scale_mesh_length_guard (m : Mesh) (fs : List ℚ) :
    (fs.length ≠ 3 → scale_mesh (some m) fs = (none, some m)) ∧
    ∀ f0 f1 f2 : ℚ, scale_mesh (some m) [f0, f1, f2] =
      (some ⟨m.vertices.map (fun v => ⟨f0 * v.x, f1 * v.y, f2 * v.z⟩), m.faces⟩,
       some ⟨m.vertices.map (fun v => ⟨f0 * v.x, f1 * v.y, f2 * v.z⟩), m.faces⟩) := by
  constructor
  · intro h
    rcases fs with _ | ⟨a, _ | ⟨b, _ | ⟨c, _ | ⟨d, t⟩⟩⟩⟩
    · rfl
    · rfl
    · rfl
    · exact absurd rfl h
    · rfl
  · intro f0 f1 f2
    exact scale_mesh_three m f0 f1 f2

/-- Witness for C7: a length-2 factor list is rejected with the mesh
untouched, and a length-3 list scales componentwise. -/
theorem scale_mesh_length_guard_witness :
    scale_mesh (some shirt0) [2, 3] = (none, some shirt0) ∧
    scale_mesh (some shirt0) [2, 3, 4] =
      (some ⟨shirt0.vertices.map (fun v => ⟨2 * v.x, 3 * v.y, 4 * v.z⟩), shirt0.faces⟩,
       some ⟨shirt0.vertices.map (fun v => ⟨2 * v.x, 3 * v.y, 4 * v.z⟩), shirt0.faces⟩) :=
  ⟨(scale_mesh_length_guard shirt0 [2, 3]).1 (by decide),
   (scale_mesh_length_guard shirt0 [2, 3]).2 2 3 4⟩

/-- C8: scaling any mesh with factors [1, 1, 1] leaves every vertex position
unchanged (identity law). -/
theorem scale_mesh_identity (m : Mesh) :
    scale_mesh (some m) [1, 1, 1] = (some m, some m) := by
  rw [scale_mesh_three]
  have h1 : ∀ v : Vec3, (⟨1 * v.x, 1 * v.y, 1 * v.z⟩ : Vec3) = v := by
    intro v; cases v; simp
  have hv : m.vertices.map (fun v => (⟨1 * v.x, 1 * v.y, 1 * v.z⟩ : Vec3)) = m.vertices := by
    simp [h1]
  rw [hv]

/-- C9: the extents of a mesh translated by any 3-vector equal the extents
of the original mesh. -/
theorem translate_mesh_extents_invariant (m : Mesh) (t0 t1 t2 : ℚ) :
    Option.map extents (translate_mesh (some m) [t0, t1, t2]).1 = some (extents m) := by
  rw [translate_mesh_three]
  simp [extents_shift]

/-- C5: the pre-scale factors equal the componentwise quotient of body
extents by garment extents, multiplied componentwise by the profile's
pre-scale ratios; at body extents [1.8, 0.9, 0.5], garment extents
[1, 1, 1] and the male profile, they are [1.422, 0.387, 0.625]. -/
theorem fitScaleFactors_formula (body_size shirt_size : Vec3)
    (hx : shirt_size.x ≠ 0) (hy : shirt_size.y ≠ 0) (hz : shirt_size.z ≠ 0) :
    (∀ gender, fitScaleFactors body_size shirt_size gender =
        ⟨body_size.x / shirt_size.x * (preScaleRatios gender).x,
         body_size.y / shirt_size.y * (preScaleRatios gender).y,
         body_size.z / shirt_size.z * (preScaleRatios gender).z⟩) ∧
    fitScaleFactors ⟨1.8, 0.9, 0.5⟩ ⟨1, 1, 1⟩ "male" = ⟨1.422, 0.387, 0.625⟩ := by
  refine ⟨fun gender => rfl, ?_⟩
  norm_num [fitScaleFactors, vecMul, vecDiv, preScaleRatios_male]

/-- Witness for C5 at the spec's scenario inputs. -/
theorem fitScaleFactors_formula_witness :
    fitScaleFactors ⟨1.8, 0.9, 0.5⟩ ⟨1, 1, 1⟩ "male" = ⟨1.422, 0.387, 0.625⟩ :=
  (fitScaleFactors_formula ⟨1.8, 0.9, 0.5⟩ ⟨1, 1, 1⟩
    (by norm_num) (by norm_num) (by norm_num)).2

/-- C6: the pre-ICP translation equals body centroid minus scaled-garment
centroid with the vertical component increased by 0.1 times the body's y
extent, and translating the scaled garment adds exactly this vector to
every vertex. -/
theorem fitTranslation_formula (body : Mesh) (body_size : Vec3) (scaled : Mesh) :
    fitTranslation body body_size scaled =
      ⟨(centroid body).x - (centroid scaled).x,
       (centroid body).y - (centroid scaled).y + 0.1 * body_size.y,
       (centroid body).z - (centroid scaled).z⟩ ∧
    (translate_mesh (some scaled) (fitTranslation body body_size scaled).toList).1 =
      some ⟨scaled.vertices.map (fun v =>
              ⟨v.x + (fitTranslation body body_size scaled).x,
               v.y + (fitTranslation body body_size scaled).y,
               v.z + (fitTranslation body body_size scaled).z⟩), scaled.faces⟩ := by
  constructor
  · simp [fitTranslation, vecSub, mul_comm]
  · rw [show (fitTranslation body body_size scaled).toList =
        [(fitTranslation body body_size scaled).x,
         (fitTranslation body body_size scaled).y,
         (fitTranslation body body_size scaled).z] from rfl,
      translate_mesh_three]

/-- C10: any gender argument other than the exact string "female" selects
the male profile constants (pre-scale ratios [0.79, 0.43, 1.25] and
post-scale factors [1, 1.04, 1.3]) and makes the call behave exactly as
with "male"; no unknown-profile error is ever produced. -/
theorem gender_fallback_male (gender : String) (h : gender ≠ "female") :
    preScaleRatios gender = ⟨0.79, 0.43, 1.25⟩ ∧
    postScaleFactors gender = [1, 1.04, 1.3] ∧
    ∀ sampler icp body_mesh shirt_mesh,
      fit_t_shirt sampler icp body_mesh shirt_mesh gender =
        fit_t_shirt sampler icp body_mesh shirt_mesh "male" := by
  have h1 : preScaleRatios gender = ⟨0.79, 0.43, 1.25⟩ := by
    rw [preScaleRatios, if_neg h]
  have h2 : postScaleFactors gender = [1, 1.04, 1.3] := by
    rw [postScaleFactors, if_neg h]
  refine ⟨h1, h2, ?_⟩
  intro sampler icp body_mesh shirt_mesh
  have h3 : ∀ bs ss, fitScaleFactors bs ss gender = fitScaleFactors bs ss "male" := by
    intro bs ss
    rw [fitScaleFactors, fitScaleFactors, h1, preScaleRatios_male]
  simp only [fit_t_shirt, h3, h2, postScaleFactors_male]

/-- Witness for C10 at the unrecognized profile name "Female". -/
theorem gender_fallback_male_witness :
    preScaleRatios "Female" = ⟨0.79, 0.43, 1.25⟩ ∧
    postScaleFactors "Female" = [1, 1.04, 1.3] ∧
    fit_t_shirt sampler0 icpFail (some body0) (some shirt0) "Female" =
      fit_t_shirt sampler0 icpFail (some body0) (some shirt0) "male" :=
  ⟨(gender_fallback_male "Female" (by decide)).1,
   (gender_fallback_male "Female" (by decide)).2.1,
   (gender_fallback_male "Female" (by decide)).2.2 sampler0 icpFail
     (some body0) (some shirt0)⟩

/-- Shape of a fit_t_shirt call on two mesh objects: it either returns a
pair whose second component is the body, or raises; in all cases the
caller-visible object states are the inputs. -/
theorem fit_some_some_shape (sampler : Mesh → Nat → List Vec3)
    (icp : List Vec3 → List Vec3 → Option Mat4) (body shirt : Mesh) (gender : String) :
    (∃ final, fit_t_shirt sampler icp (some body) (some shirt) gender =
        ⟨.ok (final, some body), some body, some shirt⟩) ∨
    (∃ e, fit_t_shirt sampler icp (some body) (some shirt) gender =
        ⟨.raised e, some body, some shirt⟩) := by
  simp only [fit_t_shirt]
  cases hE : extents body with
  | none => exact Or.inr ⟨.typeError, rfl⟩
  | some bs =>
      cases hS : extents shirt with
      | none => exact Or.inr ⟨.typeError, rfl⟩
      | some ss => exact Or.inl ⟨_, rfl⟩

/-- C4: a fit_t_shirt call leaves the caller's garment object and body
object with unchanged vertex positions (the pipeline transforms only its
working copy), and whenever it returns a pair, the second component is the
caller's body mesh, value-unchanged. -/
theorem fit_preserves_caller_meshes (sampler : Mesh → Nat → List Vec3)
    (icp : List Vec3 → List Vec3 → Option Mat4) (body shirt : Mesh) (gender : String) :
    (fit_t_shirt sampler icp (some body) (some shirt) gender).shirt_after = some shirt ∧
    (fit_t_shirt sampler icp (some body) (some shirt) gender).body_after = some body ∧
    ∀ p, (fit_t_shirt sampler icp (some body) (some shirt) gender).ret = .ok p →
      p.2 = some body := by
  rcases fit_some_some_shape sampler icp body shirt gender with ⟨final, hq⟩ | ⟨e, hq⟩
  · rw [hq]
    exact ⟨rfl, rfl, fun p hp => by cases hp; rfl⟩
  · rw [hq]
    exact ⟨rfl, rfl, fun p hp => PyResult.noConfusion hp⟩

/-- Witness for C4 at concrete inputs, including the returned-pair clause. -/
theorem fit_preserves_caller_meshes_witness :
    (fit_t_shirt sampler0 icpFail (some body0) (some shirt0) "male").shirt_after =
      some shirt0 ∧
    (fit_t_shirt sampler0 icpFail (some body0) (some shirt0) "male").body_after =
      some body0 ∧
    ((scale_mesh (some positioned0) (postScaleFactors "male")).1, some body0).2 =
      some body0 :=
  ⟨(fit_preserves_caller_meshes sampler0 icpFail body0 shirt0 "male").1,
   (fit_preserves_caller_meshes sampler0 icpFail body0 shirt0 "male").2.1,
   (fit_preserves_caller_meshes sampler0 icpFail body0 shirt0 "male").2.2
     ((scale_mesh (some positioned0) (postScaleFactors "male")).1, some body0)
     (by norm_num [fit_t_shirt, extents, centroid, fitScaleFactors,
       vecMul, vecDiv, vecSub, Vec3.toList, fitTranslation,
       scale_mesh, translate_mesh, apply_transform, applyMat4, scaleMatOf,
       translationMatOf, eye4, deepcopy, align_meshes_icp, sampler0, icpFail,
       body0, shirt0, scaled0, positioned0, preScaleRatios_male,
       postScaleFactors_male, String.reduceEq])⟩

/-- C3: if the ICP registration call raises, fit_t_shirt still returns a
pair: the fitted garment is the pre-ICP positioned garment with only the
corrective post-scale applied, and the body is its second component — the
pipeline never aborts because of an ICP failure. -/
theorem fit_icp_failure_fallback (sampler : Mesh → Nat → List Vec3)
    (icp : List Vec3 → List Vec3 → Option Mat4)
    (body shirt : Mesh) (gender : String) (body_size shirt_size : Vec3)
    (scaled positioned : Mesh)
    (hb : extents body = some body_size)
    (hs : extents shirt = some shirt_size)
    (hscaled : (scale_mesh (some (deepcopy shirt))
        (fitScaleFactors body_size shirt_size gender).toList).1 = some scaled)
    (hpos : (translate_mesh (some scaled)
        (fitTranslation body body_size scaled).toList).1 = some positioned)
    (hicp : icp (sampler (deepcopy positioned) 5000) (sampler body 5000) = none) :
    (fit_t_shirt sampler icp (some body) (some shirt) gender).ret =
      .ok ((scale_mesh (some positioned) (postScaleFactors gender)).1, some body) := by
  simp only [fit_t_shirt, hb, hs, hscaled, hpos, align_meshes_icp, hicp]

/-- Witness for C3 at concrete inputs with an always-raising ICP oracle. -/
theorem fit_icp_failure_fallback_witness :
    (fit_t_shirt sampler0 icpFail (some body0) (some shirt0) "male").ret =
      .ok ((scale_mesh (some positioned0) (postScaleFactors "male")).1, some body0) :=
  fit_icp_failure_fallback sampler0 icpFail body0 shirt0 "male" ⟨1, 2, 1⟩ ⟨1, 1, 1⟩
    scaled0 positioned0 (by norm_num [extents, body0]) (by norm_num [extents, shirt0])
    rfl rfl rfl

/-- C1 (amended): fit_t_shirt performs no zero-extent check and defines no
DegenerateGeometry error: with a zero garment-extents component the
componentwise division still happens (a silent non-finite/junk value in the
scale factors) and a fitted mesh pair is returned, not an error. -/
theorem zero_extent_no_error (sampler : Mesh → Nat → List Vec3)
    (icp : List Vec3 → List Vec3 → Option Mat4)
    (body shirt : Mesh) (gender : String) (body_size shirt_size : Vec3)
    (scaled positioned : Mesh)
    (hb : extents body = some body_size)
    (hs : extents shirt = some shirt_size)
    (h0 : shirt_size.x = 0 ∨ shirt_size.y = 0 ∨ shirt_size.z = 0)
    (hscaled : (scale_mesh (some (deepcopy shirt))
        (fitScaleFactors body_size shirt_size gender).toList).1 = some scaled)
    (hpos : (translate_mesh (some scaled)
        (fitTranslation body body_size scaled).toList).1 = some positioned) :
    returnsFittedMesh
      (fit_t_shirt sampler icp (some body) (some shirt) gender).ret = true := by
  simp only [fit_t_shirt, hb, hs, hscaled, hpos, align_meshes_icp]
  cases hicp : icp (sampler (deepcopy positioned) 5000) (sampler body 5000) with
  | none =>
      obtain ⟨m2, hm2⟩ := post_scale_is_some positioned gender
      simp [returnsFittedMesh, hm2]
  | some T =>
      obtain ⟨m2, hm2⟩ := post_scale_is_some (apply_transform (deepcopy positioned) T) gender
      simp [returnsFittedMesh, hm2]

/-- The scaled working copy of `flatShirt0` produced inside
`fit_t_shirt body0 flatShirt0 "male"` (zero x extent). -/
def flatScaled0 : Mesh :=
  ((scale_mesh (some (deepcopy flatShirt0))
      (fitScaleFactors ⟨1, 2, 1⟩ ⟨0, 1, 1⟩ "male").toList).1).getD emptyMesh0

/-- The pre-ICP positioned garment produced inside
`fit_t_shirt body0 flatShirt0 "male"` (zero x extent). -/
def flatPositioned0 : Mesh :=
  ((translate_mesh (some flatScaled0)
      (fitTranslation body0 ⟨1, 2, 1⟩ flatScaled0).toList).1).getD emptyMesh0

/-- Witness for C1 (amended) at concrete inputs with a zero x extent. -/
theorem zero_extent_no_error_witness :
    returnsFittedMesh
      (fit_t_shirt sampler0 icpFail (some body0) (some flatShirt0) "male").ret = true :=
  zero_extent_no_error sampler0 icpFail body0 flatShirt0 "male" ⟨1, 2, 1⟩ ⟨0, 1, 1⟩
    flatScaled0 flatPositioned0 (by norm_num [extents, body0])
    (by norm_num [extents, flatShirt0]) (Or.inl rfl) rfl rfl

/-- Counterexample to C1 as stated: a garment with extents [0, 1, 1] (the
spec's own scenario) does not make the pipeline fail — a fitted mesh pair
is returned. -/
theorem zero_extent_counterexample :
    extents flatShirt0 = some ⟨0, 1, 1⟩ ∧
    returnsFittedMesh
      (fit_t_shirt sampler0 icpFail (some body0) (some flatShirt0) "male").ret = true := by
  constructor
  · norm_num [extents, flatShirt0]
  · norm_num [fit_t_shirt, extents, centroid, fitScaleFactors,
      vecMul, vecDiv, vecSub, Vec3.toList, fitTranslation,
      scale_mesh, translate_mesh, apply_transform, applyMat4, scaleMatOf,
      translationMatOf, eye4, deepcopy, align_meshes_icp, sampler0, icpFail,
      body0, flatShirt0, returnsFittedMesh, preScaleRatios_male,
      postScaleFactors_male, String.reduceEq]

/-- C2 (amended): null meshes are rejected with the pipeline's invalid-input
signal — the (None, None) return — before any transform; empty meshes are
not validated, and the call instead raises an uncaught TypeError when the
division uses their None extents. -/
theorem null_empty_mesh_validation (sampler : Mesh → Nat → List Vec3)
    (icp : List Vec3 → List Vec3 → Option Mat4) (gender : String) :
    (∀ s, (fit_t_shirt sampler icp none s gender).ret = .ok (none, none)) ∧
    (∀ b : Mesh, (fit_t_shirt sampler icp (some b) none gender).ret = .ok (none, none)) ∧
    ∀ body shirt : Mesh, body.vertices = [] ∨ shirt.vertices = [] →
      (fit_t_shirt sampler icp (some body) (some shirt) gender).ret =
        .raised .typeError := by
  refine ⟨fun s => rfl, fun b => rfl, ?_⟩
  intro body shirt h
  simp only [fit_t_shirt]
  rcases h with h | h
  · rw [extents_eq_none body h]
  · rw [extents_eq_none shirt h]
    cases extents body <;> rfl

/-- Witness for C2 (amended): an empty body mesh raises TypeError. -/
theorem null_empty_mesh_validation_witness :
    (fit_t_shirt sampler0 icpFail (some emptyMesh0) (some shirt0) "male").ret =
      .raised .typeError :=
  (null_empty_mesh_validation sampler0 icpFail "male").2.2 emptyMesh0 shirt0 (Or.inl rfl)

/-- Counterexample to C2 as stated: an empty mesh does not produce the
pipeline's invalid-input signal (the (None, None) return); the call raises
an uncaught TypeError instead. -/
theorem empty_mesh_counterexample :
    (fit_t_shirt sampler0 icpFail (some emptyMesh0) (some shirt0) "male").ret =
      .raised .typeError ∧
    (fit_t_shirt sampler0 icpFail (some emptyMesh0) (some shirt0) "male").ret ≠
      .ok (none, none) := by
  refine ⟨rfl, fun hcon => ?_⟩
  exact PyResult.noConfusion hcon
